import Mathlib

/-!
Shallow embedding of the jobmon dashboard core (src/app.py):
datetime parsing, job record derivation (status/duration), the Excel load
path, query filtering/pagination and alert evaluation, together with
theorems settling the specification claims.
-/

namespace JobMon

/-- A parsed timestamp at second granularity, as produced by
`datetime.strptime` for the formats used in `parse_datetime`. -/
structure DT where
  year : Nat
  month : Nat
  day : Nat
  hour : Nat
  minute : Nat
  second : Nat
deriving Repr, DecidableEq

/-- Gregorian leap-year test (as in Python's `calendar`/`datetime`). -/
def isLeap (y : Nat) : Bool :=
  (y % 4 == 0 && y % 100 != 0) || y % 400 == 0

/-- Days in a month of the proleptic Gregorian calendar. -/
def daysInMonth (y m : Nat) : Nat :=
  if m = 2 then (if isLeap y then 29 else 28)
  else if m = 4 ∨ m = 6 ∨ m = 9 ∨ m = 11 then 30
  else 31

/-- Days in the months strictly before month `m` of year `y`. -/
def daysBeforeMonth (y m : Nat) : Nat :=
  (List.range (m - 1)).foldl (fun acc i => acc + daysInMonth y (i + 1)) 0

/-- Days in the years strictly before year `y` (proleptic Gregorian,
year 1 starts at day 0). -/
def daysBeforeYear (y : Nat) : Nat :=
  365 * (y - 1) + (y - 1) / 4 + (y - 1) / 400 - (y - 1) / 100

/-- Absolute time of a `DT` in seconds (epoch = 0001-01-01T00:00:00), the
arithmetic behind `datetime` subtraction / `total_seconds()`. -/
def toSeconds (t : DT) : Int :=
  ((((daysBeforeYear t.year + daysBeforeMonth t.year t.month + (t.day - 1)) * 24
      + t.hour) * 60 + t.minute) * 60 + t.second : Nat)

/-- The whitespace characters Python's `str.strip()` removes (ASCII range;
the claims only exercise ASCII data). -/
def pyIsSpace (c : Char) : Bool :=
  c = ' ' || c = '\t' || c = '\n' || c = '\r' || c = '\x0b' || c = '\x0c'

/-- Python `str.strip()`: drop leading and trailing whitespace. -/
def pyStrip (s : String) : String :=
  ⟨((s.toList.dropWhile pyIsSpace).reverse.dropWhile pyIsSpace).reverse⟩

/-- ASCII lowering of one character, as Python `str.lower()` does on the
ASCII range. -/
def pyLowerChar (c : Char) : Char :=
  if 'A' ≤ c ∧ c ≤ 'Z' then Char.ofNat (c.toNat + 32) else c

/-- Python `str.lower()` (ASCII range). -/
def pyLower (s : String) : String :=
  ⟨s.toList.map pyLowerChar⟩

/-- Tokens of a `strptime` format string: literal characters and the
directives appearing in `parse_datetime`'s format list. -/
inductive FmtTok where
  | lit (c : Char)
  | year
  | month
  | day
  | hour
  | minute
  | second
deriving Repr, DecidableEq

/-- Numeric value of a decimal digit character. -/
def digitVal (c : Char) : Nat := c.toNat - 48

/-- `%Y`: exactly four decimal digits (regex `\d\d\d\d` in `_strptime`). -/
def matchYear : List Char → Option (Nat × List Char)
  | a :: b :: c :: d :: rest =>
    if a.isDigit ∧ b.isDigit ∧ c.isDigit ∧ d.isDigit then
      some (digitVal a * 1000 + digitVal b * 100 + digitVal c * 10 + digitVal d, rest)
    else none
  | _ => none

/-- `%m`: regex `1[0-2]|0[1-9]|[1-9]`, alternatives in order. -/
def matchMonth : List Char → Option (Nat × List Char)
  | a :: b :: rest =>
    if a = '1' ∧ '0' ≤ b ∧ b ≤ '2' then some (10 + digitVal b, rest)
    else if a = '0' ∧ '1' ≤ b ∧ b ≤ '9' then some (digitVal b, rest)
    else if '1' ≤ a ∧ a ≤ '9' then some (digitVal a, b :: rest)
    else none
  | [a] => if '1' ≤ a ∧ a ≤ '9' then some (digitVal a, []) else none
  | [] => none

/-- `%d`: regex `3[01]|[12]\d|0[1-9]|[1-9]`, alternatives in order. -/
def matchDay : List Char → Option (Nat × List Char)
  | a :: b :: rest =>
    if a = '3' ∧ '0' ≤ b ∧ b ≤ '1' then some (30 + digitVal b, rest)
    else if ('1' ≤ a ∧ a ≤ '2') ∧ b.isDigit then some (digitVal a * 10 + digitVal b, rest)
    else if a = '0' ∧ '1' ≤ b ∧ b ≤ '9' then some (digitVal b, rest)
    else if '1' ≤ a ∧ a ≤ '9' then some (digitVal a, b :: rest)
    else none
  | [a] => if '1' ≤ a ∧ a ≤ '9' then some (digitVal a, []) else none
  | [] => none

/-- `%H`: regex `2[0-3]|[0-1]\d|\d`, alternatives in order. -/
def matchHour : List Char → Option (Nat × List Char)
  | a :: b :: rest =>
    if a = '2' ∧ '0' ≤ b ∧ b ≤ '3' then some (20 + digitVal b, rest)
    else if ('0' ≤ a ∧ a ≤ '1') ∧ b.isDigit then some (digitVal a * 10 + digitVal b, rest)
    else if a.isDigit then some (digitVal a, b :: rest)
    else none
  | [a] => if a.isDigit then some (digitVal a, []) else none
  | [] => none

/-- `%M`: regex `[0-5]\d|\d`, alternatives in order. -/
def matchMinute : List Char → Option (Nat × List Char)
  | a :: b :: rest =>
    if ('0' ≤ a ∧ a ≤ '5') ∧ b.isDigit then some (digitVal a * 10 + digitVal b, rest)
    else if a.isDigit then some (digitVal a, b :: rest)
    else none
  | [a] => if a.isDigit then some (digitVal a, []) else none
  | [] => none

/-- `%S`: regex `6[0-1]|[0-5]\d|\d`, alternatives in order. -/
def matchSecond : List Char → Option (Nat × List Char)
  | a :: b :: rest =>
    if a = '6' ∧ '0' ≤ b ∧ b ≤ '1' then some (60 + digitVal b, rest)
    else if ('0' ≤ a ∧ a ≤ '5') ∧ b.isDigit then some (digitVal a * 10 + digitVal b, rest)
    else if a.isDigit then some (digitVal a, b :: rest)
    else none
  | [a] => if a.isDigit then some (digitVal a, []) else none
  | [] => none

/-- Defaults `datetime.strptime` fills in for directives absent from the
format: 1900-01-01 00:00:00. -/
def strptimeBase : DT := ⟨1900, 1, 1, 0, 0, 0⟩

/-- Match a token list against the input, requiring the whole input to be
consumed (`strptime` raises "unconverted data remains" otherwise).  For the
formats in `parse_datetime` every directive is separated by a non-digit
literal, so first-alternative greedy matching coincides with the regex
semantics of `_strptime`. -/
def matchToks : List FmtTok → List Char → DT → Option DT
  | [], [], acc => some acc
  | [], _ :: _, _ => none
  | FmtTok.lit c :: ts, xs, acc =>
    match xs with
    | [] => none
    | x :: rest => if x = c then matchToks ts rest acc else none
  | FmtTok.year :: ts, xs, acc =>
    match matchYear xs with
    | none => none
    | some (v, rest) => matchToks ts rest { acc with year := v }
  | FmtTok.month :: ts, xs, acc =>
    match matchMonth xs with
    | none => none
    | some (v, rest) => matchToks ts rest { acc with month := v }
  | FmtTok.day :: ts, xs, acc =>
    match matchDay xs with
    | none => none
    | some (v, rest) => matchToks ts rest { acc with day := v }
  | FmtTok.hour :: ts, xs, acc =>
    match matchHour xs with
    | none => none
    | some (v, rest) => matchToks ts rest { acc with hour := v }
  | FmtTok.minute :: ts, xs, acc =>
    match matchMinute xs with
    | none => none
    | some (v, rest) => matchToks ts rest { acc with minute := v }
  | FmtTok.second :: ts, xs, acc =>
    match matchSecond xs with
    | none => none
    | some (v, rest) => matchToks ts rest { acc with second := v }

/-- The checks the `datetime` constructor performs after the regex match
(`strptime` raises `ValueError` when they fail): valid year range, a day
valid for the month, and seconds below 60. -/
def validDT (t : DT) : Bool :=
  1 ≤ t.year && t.year ≤ 9999 && 1 ≤ t.month && t.month ≤ 12 &&
  1 ≤ t.day && t.day ≤ daysInMonth t.year t.month &&
  t.hour ≤ 23 && t.minute ≤ 59 && t.second ≤ 59

/-- One `datetime.strptime(text, fmt)` attempt: full regex match, then the
constructor's validation. -/
def strptime (fmt : List FmtTok) (cs : List Char) : Option DT :=
  match matchToks fmt cs strptimeBase with
  | none => none
  | some t => if validDT t then some t else none

/-- The fixed format list of `parse_datetime`, in source order. -/
def formats : List (List FmtTok) :=
  [ [FmtTok.year, FmtTok.lit '-', FmtTok.month, FmtTok.lit '-', FmtTok.day,
     FmtTok.lit 'T', FmtTok.hour, FmtTok.lit ':', FmtTok.minute, FmtTok.lit ':',
     FmtTok.second],
    [FmtTok.year, FmtTok.lit '-', FmtTok.month, FmtTok.lit '-', FmtTok.day,
     FmtTok.lit ' ', FmtTok.hour, FmtTok.lit ':', FmtTok.minute, FmtTok.lit ':',
     FmtTok.second],
    [FmtTok.year, FmtTok.lit '-', FmtTok.month, FmtTok.lit '-', FmtTok.day],
    [FmtTok.month, FmtTok.lit '/', FmtTok.day, FmtTok.lit '/', FmtTok.year,
     FmtTok.lit ' ', FmtTok.hour, FmtTok.lit ':', FmtTok.minute, FmtTok.lit ':',
     FmtTok.second],
    [FmtTok.month, FmtTok.lit '/', FmtTok.day, FmtTok.lit '/', FmtTok.year] ]

/-- The `for fmt in formats` loop: first format that parses wins. -/
def tryFormats : List (List FmtTok) → List Char → Option DT
  | [], _ => none
  | f :: fs, cs =>
    match strptime f cs with
    | some dt => some dt
    | none => tryFormats fs cs

/-- `parse_datetime` from src/app.py.  The permissive `pd.to_datetime`
fallback is an external library routine, passed here as a parameter
`fallback` (returning `none` both when it fails and when it raises, since
the surrounding `except` returns `None`). -/
def parse_datetime (fallback : String → Option DT) (s : String) : Option DT :=
  if pyStrip s = "" then none
  else
    match tryFormats formats (pyStrip s).toList with
    | some dt => some dt
    | none => fallback (pyStrip s)

/-- `calculate_duration` from src/app.py.  `none` stands for Python `None`;
`total_seconds()` is exact on these second-granularity values, and
`int(x / 60)` truncates, which on the non-negative branch is floor. -/
def calculate_duration (start_time end_time : Option DT) : Option String :=
  match start_time with
  | none => none
  | some s =>
    match end_time with
    | none => some "Running"
    | some e =>
      let secs : Int := toSeconds e - toSeconds s
      if secs < 0 then some "Invalid"
      else
        let minutes : Nat := (secs / 60).toNat
        let hours : Nat := minutes / 60
        if hours > 0 then some (toString hours ++ "h " ++ toString (minutes % 60) ++ "m")
        else some (toString minutes ++ "m")

/-- `determine_status` from src/app.py. -/
def determine_status (start_time end_time : Option DT) : String :=
  match start_time with
  | none => "failed"
  | some s =>
    match end_time with
    | none => "running"
    | some e =>
      if toSeconds e - toSeconds s > 2 * 60 * 60 then "delayed"
      else "completed"

/-- One raw spreadsheet row as handed over by `pd.read_excel`: each cell is
either a value (modelled as its string form, `str(cell)`) or NaN/absent
(`none`, the `pd.notna(...) == False` case). -/
structure RawRow where
  jobName : Option String
  startTime : Option String
  endTime : Option String
  dependency : Option String
  description : Option String
  priority : Option String
deriving Repr, DecidableEq

/-- `str(row[k]).strip() if pd.notna(row[k]) else dflt`. -/
def cellOr (c : Option String) (dflt : String) : String :=
  match c with
  | some s => pyStrip s
  | none => dflt

/-- `str(x)` of a possibly-NaN cell, as interpolated into the id f-string
(`str(nan)` is the text `nan`). -/
def pyStr (c : Option String) : String :=
  match c with
  | some s => s
  | none => "nan"

/-- The dict built per row inside `load_jobs_from_excel`, before
`process_job_data` adds the derived fields. -/
structure RawJob where
  id : String
  jobName : String
  startTime : String
  endTime : String
  dependency : String
  description : String
  priority : String
deriving Repr, DecidableEq

/-- The per-row dict construction in `load_jobs_from_excel` (src/app.py
lines 69-77); `nowTs` is the `datetime.now().timestamp()` text. -/
def mkRawJob (row : RawRow) (index : Nat) (nowTs : String) : RawJob :=
  { id := pyStr row.jobName ++ "_" ++ toString index ++ "_" ++ nowTs,
    jobName := cellOr row.jobName "",
    startTime := cellOr row.startTime "",
    endTime := cellOr row.endTime "",
    dependency := cellOr row.dependency "",
    description := cellOr row.description "",
    priority := cellOr row.priority "normal" }

/-- A fully built job record: the raw fields plus the derived fields that
`process_job_data` attaches. -/
structure Job where
  id : String
  jobName : String
  startTime : String
  endTime : String
  dependency : String
  description : String
  priority : String
  status : String
  duration : Option String
  startTimeParsed : Option DT
  endTimeParsed : Option DT
deriving Repr, DecidableEq

/-- `process_job_data` from src/app.py. -/
def process_job_data (fallback : String → Option DT) (job : RawJob) : Job :=
  let start_time := parse_datetime fallback job.startTime
  let end_time := parse_datetime fallback job.endTime
  { id := job.id,
    jobName := job.jobName,
    startTime := job.startTime,
    endTime := job.endTime,
    dependency := job.dependency,
    description := job.description,
    priority := job.priority,
    status := determine_status start_time end_time,
    duration := calculate_duration start_time end_time,
    startTimeParsed := start_time,
    endTimeParsed := end_time }

/-- Build one `Job` from one raw row, as the loop body of
`load_jobs_from_excel` does. -/
def buildJob (fallback : String → Option DT) (row : RawRow) (index : Nat)
    (nowTs : String) : Job :=
  process_job_data fallback (mkRawJob row index nowTs)

/-- The module-level state touched by `load_jobs_from_excel`: the global
`jobs_data` list and the `last_updated` timestamp. -/
structure StoreState where
  jobs_data : List Job
  last_updated : Option String
deriving Repr, DecidableEq

/-- `load_jobs_from_excel` from src/app.py.  The spreadsheet source is the
external collaborator: `none` covers both "file missing" and "read raised"
(both set the collection empty and stamp `last_updated`); `some rows` is a
successful `pd.read_excel` with its row iteration order. -/
def load_jobs_from_excel (fallback : String → Option DT)
    (source : Option (List RawRow)) (now : String) : StoreState :=
  match source with
  | none => ⟨[], some now⟩
  | some rows =>
    ⟨rows.enum.map (fun p => buildJob fallback p.2 p.1 now), some now⟩

/-- Python truthiness of an optional request argument (`None` and the empty
string are falsy). -/
def argTruthy : Option String → Bool
  | none => false
  | some s => s != ""

/-- Python substring test `needle in hay`. -/
def strContains (hay needle : String) : Bool :=
  decide (needle.toList <:+: hay.toList)

/-- The search predicate of `get_jobs`: case-insensitive substring over
jobName, dependency, and (when non-empty) description. -/
def matchesSearch (term : String) (job : Job) : Bool :=
  strContains (pyLower job.jobName) term ||
  strContains (pyLower job.dependency) term ||
  (job.description != "" && strContains (pyLower job.description) term)

/-- Normalize a Python slice bound for a list of length `len`: negative
indices count from the end, and both ends clamp into `[0, len]`. -/
def pySliceNorm (len : Nat) (i : Int) : Nat :=
  if i < 0 then ((len : Int) + i).toNat
  else min i.toNat len

/-- Python list slicing `l[start:stop]`. -/
def pySlice {α : Type} (l : List α) (start stop : Int) : List α :=
  (l.take (pySliceNorm l.length stop)).drop (pySliceNorm l.length start)

/-- The payload of the `/api/jobs` response that the claims speak about. -/
structure JobsResponse where
  jobs : List Job
  totalCount : Nat
deriving Repr, DecidableEq

/-- `get_jobs` from src/app.py (the filtering-and-pagination body, after the
query-string arguments have been read): search filter, then status filter
(disabled by absent/empty/`all`), then priority filter, then `totalCount`
and the pagination slice. -/
def get_jobs (jobs_data : List Job) (search status priority : Option String)
    (page pageSize : Int) : JobsResponse :=
  let filtered1 :=
    if argTruthy search then
      let term := pyLower (search.getD "")
      jobs_data.filter (matchesSearch term)
    else jobs_data
  let filtered2 :=
    if argTruthy status && status != some "all" then
      filtered1.filter (fun job => job.status == status.getD "")
    else filtered1
  let filtered3 :=
    if argTruthy priority && priority != some "all" then
      filtered2.filter (fun job => job.priority == priority.getD "")
    else filtered2
  let total_count := filtered3.length
  let start_idx := (page - 1) * pageSize
  let end_idx := start_idx + pageSize
  ⟨pySlice filtered3 start_idx end_idx, total_count⟩

/-- One alert object as assembled in `get_alerts`. -/
structure Alert where
  type : String
  message : String
  jobs : List String
  severity : String
deriving Repr, DecidableEq

/-- The long-running test in `get_alerts`: status `running`, a parsed start
time, and more than 3 hours elapsed since it. -/
def isLongRunning (now : DT) (job : Job) : Bool :=
  job.status == "running" &&
  (match job.startTimeParsed with
   | none => false
   | some st => decide (toSeconds now - toSeconds st > 3 * 60 * 60))

/-- `get_alerts` from src/app.py (the alert assembly; `now` is the
`datetime.now()` the long-running scan uses). -/
def get_alerts (jobs_data : List Job) (now : DT) : List Alert :=
  let delayed_jobs := jobs_data.filter (fun job => job.status == "delayed")
  let failed_jobs := jobs_data.filter (fun job => job.status == "failed")
  let long_running_jobs := jobs_data.filter (isLongRunning now)
  (if delayed_jobs ≠ [] then
    [⟨"warning",
      toString delayed_jobs.length ++ " job(s) are running longer than expected",
      delayed_jobs.map Job.jobName, "medium"⟩]
   else []) ++
  (if failed_jobs ≠ [] then
    [⟨"error",
      toString failed_jobs.length ++ " job(s) have failed to start",
      failed_jobs.map Job.jobName, "high"⟩]
   else []) ++
  (if long_running_jobs ≠ [] then
    [⟨"info",
      toString long_running_jobs.length ++ " job(s) have been running for more than 3 hours",
      long_running_jobs.map Job.jobName, "low"⟩]
   else [])

/-! ### Spec-side definitions and concrete fixtures -/

/-- The duration formatting rule as §4.2 of the specification words it:
for `m` total whole minutes, `"{m/60}h {m%60}m"` when `m >= 60`, else
`"{m}m"` (integer division and modulo).  Compared against
`calculate_duration`, whose branch condition is `hours > 0`. -/
def specDurationFormat (m : Nat) : String :=
  if 60 ≤ m then toString (m / 60) ++ "h " ++ toString (m % 60) ++ "m"
  else toString m ++ "m"

/-- A fallback parser that always fails; the concrete rows below parse (or
fail) independently of the fallback. -/
def noFallback : String → Option DT := fun _ => none

/-- The example row of §8: Daily_ETL, one hour of runtime, high priority. -/
def rowDailyETL : RawRow :=
  ⟨some "Daily_ETL", some "2024-03-20T00:00:00", some "2024-03-20T01:00:00",
   none, none, some "high"⟩

/-- A row whose time cells hold only whitespace or the empty string. -/
def rowBlankTimes : RawRow := ⟨some "X", some "", some "   ", none, none, none⟩

/-- A row whose priority cell is a whitespace-only string (a present,
non-NaN cell). -/
def rowSpacePriority : RawRow := ⟨some "X", some "", some "", none, none, some "   "⟩

/-- A row whose priority cell is absent (NaN). -/
def rowNoPriority : RawRow := ⟨some "X", some "", some "", none, none, none⟩

/-- A row whose end time is strictly before its start time. -/
def rowBackwards : RawRow :=
  ⟨some "B", some "2024-03-20T02:00:00", some "2024-03-20T01:00:00",
   none, none, some "high"⟩

/-- A completed job record, used to exercise pagination. -/
def jobCompletedEx : Job :=
  ⟨"id0", "A", "", "", "", "", "normal", "completed", none, none, none⟩

/-- A delayed job record. -/
def jobDelayedEx : Job :=
  ⟨"id1", "D1", "", "", "", "", "normal", "delayed", none, none, none⟩

/-- A failed job record. -/
def jobFailedEx : Job :=
  ⟨"id2", "F1", "", "", "", "", "normal", "failed", none, none, none⟩

/-! ### Helper lemmas -/

/-- If every format in the list fails, the format loop fails. -/
theorem tryFormats_eq_none (fs : List (List FmtTok)) (cs : List Char)
    (h : ∀ f ∈ fs, strptime f cs = none) : tryFormats fs cs = none := by
  induction fs with
  | nil => rfl
  | cons f fs ih =>
    simp only [tryFormats]
    rw [h f (List.mem_cons_self f fs)]
    exact ih (fun g hg => h g (List.mem_cons_of_mem f hg))

/-- A Python slice starting at or beyond the end of the list is empty. -/
theorem pySlice_eq_nil {α : Type} (l : List α) (start stop : Int)
    (h : (l.length : Int) ≤ start) : pySlice l start stop = [] := by
  have hstart : pySliceNorm l.length start = l.length := by
    unfold pySliceNorm
    rw [if_neg (by omega)]
    omega
  unfold pySlice
  rw [hstart]
  apply List.drop_eq_nil_of_le
  rw [List.length_take]
  omega

/-! ### Claim theorems -/

/-- C1 (counterexample): on the row
`{jobName:"Daily_ETL", startTime:"2024-03-20T00:00:00",
endTime:"2024-03-20T01:00:00", priority:"high"}` the built job does have
status `"completed"`, but its duration is not `"60m"`: 60 whole minutes
take the `hours > 0` branch of `calculate_duration`. -/
theorem C1_counterexample :
    (buildJob noFallback rowDailyETL 0 "t").status = "completed" ∧
    (buildJob noFallback rowDailyETL 0 "t").duration ≠ some "60m" := by
  decide

/-- C1 (amended): the Daily_ETL example row builds to status `"completed"`
and duration `"1h 0m"`, for any fallback parser, row index and load
timestamp (the fixed-format parser settles both time cells). -/
theorem C1_daily_etl_scenario (fallback : String → Option DT) (idx : Nat)
    (nowTs : String) :
    (buildJob fallback rowDailyETL idx nowTs).status = "completed" ∧
    (buildJob fallback rowDailyETL idx nowTs).duration = some "1h 0m" :=
  ⟨rfl, rfl⟩

/-- C2: when both timestamps are present and the end is not before the
start, `calculate_duration` produces exactly the specification's format:
with `m` the truncated whole minutes of the difference, `"{m/60}h {m%60}m"`
when `m ≥ 60` and `"{m}m"` otherwise; in particular 59, 60 and 125 minutes
give `"59m"`, `"1h 0m"` and `"2h 5m"`. -/
theorem C2_duration_formatting :
    (∀ s e : DT, toSeconds s ≤ toSeconds e →
      calculate_duration (some s) (some e) =
        some (specDurationFormat ((toSeconds e - toSeconds s) / 60).toNat)) ∧
    calculate_duration (some ⟨2024, 1, 1, 0, 0, 0⟩) (some ⟨2024, 1, 1, 0, 59, 0⟩) =
      some "59m" ∧
    calculate_duration (some ⟨2024, 1, 1, 0, 0, 0⟩) (some ⟨2024, 1, 1, 1, 0, 0⟩) =
      some "1h 0m" ∧
    calculate_duration (some ⟨2024, 1, 1, 0, 0, 0⟩) (some ⟨2024, 1, 1, 2, 5, 0⟩) =
      some "2h 5m" := by
  refine ⟨fun s e h => ?_, by decide, by decide, by decide⟩
  simp only [calculate_duration, specDurationFormat]
  rw [if_neg (by omega : ¬ toSeconds e - toSeconds s < 0)]
  by_cases h60 : 60 ≤ ((toSeconds e - toSeconds s) / 60).toNat
  · rw [if_pos (by omega), if_pos h60]
  · rw [if_neg (by omega), if_neg h60]

/-- C2 witness: the general formatting theorem applied to a concrete
59-minute run. -/
theorem C2_duration_formatting_witness :
    calculate_duration (some ⟨2024, 3, 20, 0, 0, 0⟩) (some ⟨2024, 3, 20, 0, 59, 0⟩) =
      some "59m" :=
  (C2_duration_formatting.1 ⟨2024, 3, 20, 0, 0, 0⟩ ⟨2024, 3, 20, 0, 59, 0⟩
    (by decide)).trans (by decide)

/-- C3: with both timestamps present, `determine_status` yields `"delayed"`
exactly when the difference exceeds two hours and `"completed"` exactly when
it is at most two hours; the boundary cases 2h0m0s and 2h0m1s land on
`"completed"` and `"delayed"`. -/
theorem C3_status_threshold :
    (∀ s e : DT,
      (determine_status (some s) (some e) = "delayed" ↔
        2 * 60 * 60 < toSeconds e - toSeconds s) ∧
      (determine_status (some s) (some e) = "completed" ↔
        toSeconds e - toSeconds s ≤ 2 * 60 * 60)) ∧
    determine_status (some ⟨2024, 3, 20, 0, 0, 0⟩) (some ⟨2024, 3, 20, 2, 0, 0⟩) =
      "completed" ∧
    determine_status (some ⟨2024, 3, 20, 0, 0, 0⟩) (some ⟨2024, 3, 20, 2, 0, 1⟩) =
      "delayed" := by
  refine ⟨fun s e => ?_, by decide, by decide⟩
  simp only [determine_status]
  by_cases h : 2 * 60 * 60 < toSeconds e - toSeconds s
  · rw [if_pos h]
    exact ⟨⟨fun _ => h, fun _ => rfl⟩, iff_of_false (by decide) (by omega)⟩
  · rw [if_neg h]
    exact ⟨iff_of_false (by decide) h, iff_of_true rfl (by omega)⟩

/-- C3 witness: the threshold theorem applied at a concrete pair exactly two
hours apart. -/
theorem C3_status_threshold_witness :
    determine_status (some ⟨2024, 3, 20, 0, 0, 0⟩) (some ⟨2024, 3, 20, 2, 0, 0⟩) =
      "completed" :=
  ((C3_status_threshold.1 ⟨2024, 3, 20, 0, 0, 0⟩ ⟨2024, 3, 20, 2, 0, 0⟩).2).mpr
    (by decide)

/-- C4: a row whose time cells are blank (empty or whitespace-only, or
absent) builds to status `"failed"` and absent duration. -/
theorem C4_blank_times (fb : String → Option DT) (row : RawRow) (idx : Nat)
    (ts : String)
    (hs : cellOr row.startTime "" = "") (he : cellOr row.endTime "" = "") :
    (buildJob fb row idx ts).status = "failed" ∧
    (buildJob fb row idx ts).duration = none := by
  simp only [buildJob, process_job_data, mkRawJob, hs, he]
  exact ⟨rfl, rfl⟩

/-- C4 witness: a concrete row with an empty start cell and a
whitespace-only end cell. -/
theorem C4_blank_times_witness :
    cellOr rowBlankTimes.startTime "" = "" ∧
    cellOr rowBlankTimes.endTime "" = "" ∧
    (buildJob noFallback rowBlankTimes 0 "t").status = "failed" ∧
    (buildJob noFallback rowBlankTimes 0 "t").duration = none :=
  ⟨by decide, by decide,
   C4_blank_times noFallback rowBlankTimes 0 "t" (by decide) (by decide)⟩

/-- C5 (counterexample): a present but whitespace-only priority cell does
not default to `"normal"`: `pd.notna` is true for it, so it passes through
`strip()` and becomes the empty string. -/
theorem C5_counterexample :
    rowSpacePriority.priority = some "   " ∧
    (buildJob noFallback rowSpacePriority 0 "t").priority = "" ∧
    (buildJob noFallback rowSpacePriority 0 "t").priority ≠ "normal" := by
  decide

/-- C5 (amended): the built priority is `"normal"` exactly when the cell is
absent (NaN); any present cell — including empty or whitespace-only
strings — passes through as its trimmed value. -/
theorem C5_priority_default (fb : String → Option DT) (row : RawRow) (idx : Nat)
    (ts : String) :
    (row.priority = none → (buildJob fb row idx ts).priority = "normal") ∧
    (∀ p, row.priority = some p → (buildJob fb row idx ts).priority = pyStrip p) := by
  constructor
  · intro h
    simp only [buildJob, process_job_data, mkRawJob, cellOr, h]
  · intro p h
    simp only [buildJob, process_job_data, mkRawJob, cellOr, h]

/-- C5 witness: the amended rule applied to a concrete row with an absent
priority cell. -/
theorem C5_priority_default_witness :
    rowNoPriority.priority = none ∧
    (buildJob noFallback rowNoPriority 0 "t").priority = "normal" :=
  ⟨rfl, (C5_priority_default noFallback rowNoPriority 0 "t").1 rfl⟩

/-- C6: `parse_datetime` is total (it returns an optional timestamp, never
an error): blank input (empty or whitespace-only) yields `none`, and when
every attempt — each of the five fixed formats in order, then the
permissive fallback — fails, it also yields `none`. -/
theorem C6_parse_never_errors (fb : String → Option DT) (s : String) :
    (pyStrip s = "" → parse_datetime fb s = none) ∧
    ((∀ f ∈ formats, strptime f (pyStrip s).toList = none) →
      fb (pyStrip s) = none → parse_datetime fb s = none) := by
  constructor
  · intro h
    simp [parse_datetime, h]
  · intro hf hfb
    by_cases he : pyStrip s = ""
    · simp [parse_datetime, he]
    · simp only [parse_datetime, if_neg he]
      rw [tryFormats_eq_none formats (pyStrip s).toList hf]
      exact hfb

/-- C6 witness: whitespace-only input and an unparsable input, both mapped
to `none` by the totality theorem. -/
theorem C6_parse_never_errors_witness :
    parse_datetime noFallback "   " = none ∧
    parse_datetime noFallback "not a date" = none :=
  ⟨(C6_parse_never_errors noFallback "   ").1 (by decide),
   (C6_parse_never_errors noFallback "not a date").2 (by decide) rfl⟩

/-- C7: when the spreadsheet source is missing or unreadable the reload
produces the empty collection and still stamps `last_updated` with the
current time; for every source condition (missing or readable) the reload
returns a state — it never propagates an error — and always updates
`last_updated`. -/
theorem C7_reload_degrades (fb : String → Option DT) (now : String) :
    load_jobs_from_excel fb none now = ⟨[], some now⟩ ∧
    ∀ source : Option (List RawRow),
      (load_jobs_from_excel fb source now).last_updated = some now := by
  refine ⟨rfl, fun source => ?_⟩
  cases source <;> rfl

/-- C7 witness: the degraded-reload theorem at a concrete timestamp. -/
theorem C7_reload_degrades_witness :
    load_jobs_from_excel noFallback none "2024-03-20" = ⟨[], some "2024-03-20"⟩ :=
  (C7_reload_degrades noFallback "2024-03-20").1

/-- C8: `totalCount` is the post-filter pre-pagination count, hence
identical for any two requested pages under the same filters, and a page
whose start index lies at or past the end of the filtered results yields an
empty page rather than an error. -/
theorem C8_pagination (jobs : List Job) (search status priority : Option String)
    (p1 p2 N : Int) :
    (get_jobs jobs search status priority p1 N).totalCount =
      (get_jobs jobs search status priority p2 N).totalCount ∧
    (((get_jobs jobs search status priority p1 N).totalCount : Int) ≤ (p1 - 1) * N →
      (get_jobs jobs search status priority p1 N).jobs = []) := by
  constructor
  · rfl
  · intro h
    exact pySlice_eq_nil _ _ _ h

/-- C8 witness: one completed job, page 5 of size 2 — past the end, so the
page is empty while `totalCount` still reports the filtered count. -/
theorem C8_pagination_witness :
    ((get_jobs [jobCompletedEx] none none none 5 2).totalCount : Int) ≤ (5 - 1) * 2 ∧
    (get_jobs [jobCompletedEx] none none none 5 2).jobs = [] ∧
    (get_jobs [jobCompletedEx] none none none 5 2).totalCount =
      (get_jobs [jobCompletedEx] none none none 1 2).totalCount :=
  ⟨by decide,
   (C8_pagination [jobCompletedEx] none none none 5 1 2).2 (by decide),
   (C8_pagination [jobCompletedEx] none none none 5 1 2).1⟩

/-- C10: when both time cells parse but the end time is strictly earlier
than the start time, the built job is `"completed"` (the negative
difference passes the ≤ 2 hours test) while its duration is `"Invalid"` —
so a completed status does not imply a well-formed duration. -/
theorem C10_backwards_times (fb : String → Option DT) (row : RawRow) (idx : Nat)
    (ts : String) (s e : DT)
    (hs : parse_datetime fb (cellOr row.startTime "") = some s)
    (he : parse_datetime fb (cellOr row.endTime "") = some e)
    (hlt : toSeconds e < toSeconds s) :
    (buildJob fb row idx ts).status = "completed" ∧
    (buildJob fb row idx ts).duration = some "Invalid" := by
  simp only [buildJob, process_job_data, mkRawJob, hs, he]
  constructor
  · simp only [determine_status]
    rw [if_neg (by omega)]
  · simp only [calculate_duration]
    rw [if_pos (by omega)]

/-- C10 witness: a concrete row running from 02:00 back to 01:00. -/
theorem C10_backwards_times_witness :
    parse_datetime noFallback (cellOr rowBackwards.startTime "") =
      some ⟨2024, 3, 20, 2, 0, 0⟩ ∧
    parse_datetime noFallback (cellOr rowBackwards.endTime "") =
      some ⟨2024, 3, 20, 1, 0, 0⟩ ∧
    toSeconds ⟨2024, 3, 20, 1, 0, 0⟩ < toSeconds ⟨2024, 3, 20, 2, 0, 0⟩ ∧
    (buildJob noFallback rowBackwards 0 "t").status = "completed" ∧
    (buildJob noFallback rowBackwards 0 "t").duration = some "Invalid" :=
  ⟨by decide, by decide, by decide,
   C10_backwards_times noFallback rowBackwards 0 "t" ⟨2024, 3, 20, 2, 0, 0⟩
     ⟨2024, 3, 20, 1, 0, 0⟩ (by decide) (by decide) (by decide)⟩

/-- C9: alert evaluation emits at most three alerts, in a fixed order whose
types form a subsequence of warning (delayed), error (failed), info
(long-running); each alert appears exactly when its triggering job set is
non-empty; and a collection whose delayed set is one job and failed set one
job (with no long-running job) yields exactly
[warning(delayed), error(failed)]. -/
theorem C9_alert_order (jobs : List Job) (now : DT) :
    (get_alerts jobs now).length ≤ 3 ∧
    List.Sublist ((get_alerts jobs now).map Alert.type) ["warning", "error", "info"] ∧
    (("warning" ∈ (get_alerts jobs now).map Alert.type) ↔
      jobs.filter (fun job => job.status == "delayed") ≠ []) ∧
    (("error" ∈ (get_alerts jobs now).map Alert.type) ↔
      jobs.filter (fun job => job.status == "failed") ≠ []) ∧
    (("info" ∈ (get_alerts jobs now).map Alert.type) ↔
      jobs.filter (isLongRunning now) ≠ []) ∧
    (∀ j1 j2 : Job,
      jobs.filter (fun job => job.status == "delayed") = [j1] →
      jobs.filter (fun job => job.status == "failed") = [j2] →
      jobs.filter (isLongRunning now) = [] →
      get_alerts jobs now =
        [⟨"warning", "1 job(s) are running longer than expected", [j1.jobName], "medium"⟩,
         ⟨"error", "1 job(s) have failed to start", [j2.jobName], "high"⟩]) := by
  by_cases h1 : jobs.filter (fun job => job.status == "delayed") = [] <;>
    by_cases h2 : jobs.filter (fun job => job.status == "failed") = [] <;>
      by_cases h3 : jobs.filter (isLongRunning now) = [] <;>
        refine ⟨?_, ?_, ?_, ?_, ?_, ?_⟩ <;>
          simp_all [get_alerts] <;>
            exact fun j1 j2 _ _ => ⟨rfl, rfl⟩

/-- C9 witness: one delayed and one failed job produce exactly the
warning-then-error pair. -/
theorem C9_alert_order_witness :
    get_alerts [jobDelayedEx, jobFailedEx] ⟨2024, 3, 20, 0, 0, 0⟩ =
      [⟨"warning", "1 job(s) are running longer than expected", ["D1"], "medium"⟩,
       ⟨"error", "1 job(s) have failed to start", ["F1"], "high"⟩] :=
  (C9_alert_order [jobDelayedEx, jobFailedEx] ⟨2024, 3, 20, 0, 0, 0⟩).2.2.2.2.2
    jobDelayedEx jobFailedEx (by decide) (by decide) (by decide)

end JobMon
